import Mathlib

/-!
Verification development for the plotes_backend repository: a shallow
embedding, in Lean 4, of the repository's Colony/Plot consistency
mechanism, the price-derivation rule, the field-validation pipeline,
phone sanitization, and the pagination envelope, together with theorems
settling the specification's claims about them.

Source-to-definition map:
* `PlotStatus`, `Plot`              — Plot schema (src/unnamed/part_000, lines 3-97)
* `Colony`                          — Colony schema (src/models/Colony.js, lines 3-109)
* `Colony.updatePlotCounts`         — src/models/Colony.js, lines 112-122
* `Plot.preSave`                    — plotSchema.pre save hook (src/unnamed/part_000, lines 100-105)
* `runCountHook`                    — plotSchema.post save / post remove hooks (part_000, lines 107-123)
* `postPlot`, `putPlot`, `deletePlot` — plot route handlers (src/routes/userRoutes.js, lines 496-615)
* `postColony`                      — colony create handler (src/unnamed/part_001, lines 95-135)
* `sanitizePhone`                   — sanitizers.sanitizePhone (src/utils/validation.js, lines 51-64)
* `handleValidationErrors`          — src/utils/validation.js, lines 382-402
* `paginationOf`                    — pagination blocks (userRoutes.js lines 476-483, part_001 lines 42-46)

Machine numbers on these code paths are modelled as exact rationals
(the amounts involved are products and counts, with no float-specific
behaviour asserted by the spec), identifiers as naturals, and the
document store as explicit lists threaded through each operation.
-/

namespace Plotes

/-- Plot status enum from the Plot schema:
`enum: ['available', 'blocked', 'sold', 'reserved']`, default `available`. -/
inductive PlotStatus where
  | available
  | blocked
  | sold
  | reserved
deriving DecidableEq, Repr

/-- The fields of a Plot document that the verified mechanisms read or
write: identifier, `plotNumber`, owning `colony` reference, `area`,
`pricePerSqFt`, derived `totalPrice`, and `status`.  `area`,
`pricePerSqFt` and `totalPrice` are `Option ℚ` because a document field
may be absent; JavaScript truthiness additionally treats `0` as absent
in the pre-save hook, which the hook model reflects explicitly. -/
structure Plot where
  id : Nat
  plotNumber : String
  colony : Nat
  area : Option ℚ
  pricePerSqFt : Option ℚ
  totalPrice : Option ℚ
  status : PlotStatus
deriving DecidableEq, Repr

/-- The fields of a Colony document that the verified mechanisms read or
write: identifier, required `name` and `address`, and the four derived
counters, which the schema defaults to `0`. -/
structure Colony where
  id : Nat
  name : String
  address : String
  totalPlots : Nat
  availablePlots : Nat
  soldPlots : Nat
  blockedPlots : Nat
deriving DecidableEq, Repr

/-- `Plot.find({ colony: id })`: every Plot record whose `colony`
reference equals the given identifier. -/
def plotsOfColony (plots : List Plot) (colonyId : Nat) : List Plot :=
  plots.filter (fun p => p.colony = colonyId)

/-- `colonySchema.methods.updatePlotCounts` (src/models/Colony.js,
lines 112-122): load every Plot whose `colony` field equals this
colony's id, set `totalPlots` to the number of loaded plots and each
status counter to the number of loaded plots with that status, and
persist the updated record (here: return the updated record, which the
caller writes back). -/
def Colony.updatePlotCounts (plots : List Plot) (c : Colony) : Colony :=
  let ps := plotsOfColony plots c.id
  { c with
    totalPlots := ps.length
    availablePlots := (ps.filter (fun p => p.status = .available)).length
    soldPlots := (ps.filter (fun p => p.status = .sold)).length
    blockedPlots := (ps.filter (fun p => p.status = .blocked)).length }

/-- `plotSchema.pre('save')` (src/unnamed/part_000, lines 100-105):
`if (this.area && this.pricePerSqFt) this.totalPrice = this.area * this.pricePerSqFt`.
JavaScript truthiness makes the guard fail when either field is absent
or zero. -/
def Plot.preSave (p : Plot) : Plot :=
  match p.area, p.pricePerSqFt with
  | some a, some r =>
      if a ≠ 0 ∧ r ≠ 0 then { p with totalPrice := some (a * r) } else p
  | _, _ => p

/-! ## Phone sanitization (src/utils/validation.js, lines 51-64) -/

/-- `phone.replace(/\D/g, '')`: keep only the decimal digits of the
input string. -/
def extractDigits (s : String) : String :=
  ⟨s.data.filter (fun c => c.isDigit)⟩

/-- `sanitizers.sanitizePhone`: extract the digits; exactly 10 digits
yields `"+91" ++ digits`; otherwise 10-15 digits yields `"+" ++ digits`;
anything else is rejected (`none`, modelling `null`). -/
def sanitizePhone (s : String) : Option String :=
  let digitsOnly := extractDigits s
  if digitsOnly.length = 10 then
    some ("+91" ++ digitsOnly)
  else if 10 ≤ digitsOnly.length ∧ digitsOnly.length ≤ 15 then
    some ("+" ++ digitsOnly)
  else
    none

/-! ## Pagination envelope -/

/-- The pagination block `{current, pages, total}` returned by list
handlers. -/
structure Pagination where
  current : Nat
  pages : Nat
  total : Nat
deriving DecidableEq, Repr

/-- `Math.ceil(total / limit)`, the `pages` computation of the list
handlers, in exact arithmetic: the ceiling of the rational
`total / limit`. -/
def pagesOf (total limit : Nat) : Nat :=
  ⌈(total : ℚ) / (limit : ℚ)⌉₊

/-- The pagination block built by the list handlers
(src/routes/userRoutes.js lines 477-481, src/unnamed/part_001 lines
42-46): `{ current: page, pages: Math.ceil(total / limit), total }`. -/
def paginationOf (page limit total : Nat) : Pagination :=
  { current := page, pages := pagesOf total limit, total := total }

/-! ## Validation-failure handling (src/utils/validation.js, lines 382-402) -/

/-- One raw express-validator error: the offending field's path, the
violated rule's message, the rejected raw value, and the request
location the value came from. -/
structure FieldError where
  path : String
  msg : String
  value : String
  location : String
deriving DecidableEq, Repr

/-- One structured record of the 400 response body, as built by
`handleValidationErrors`: `{field, message, value, location}` where
`value` carries the rejected raw value. -/
structure ErrorDetail where
  field : String
  message : String
  value : String
  location : String
deriving DecidableEq, Repr

/-- The per-error mapping inside `handleValidationErrors`:
`errors.array().map(error => ({field: error.path, message: error.msg,
value: error.value, location: error.location}))`. -/
def mkDetail (e : FieldError) : ErrorDetail :=
  { field := e.path, message := e.msg, value := e.value, location := e.location }

/-- The JSON failure envelope sent on validation failure: HTTP status,
`success` flag, message, and the aggregated error records. -/
structure ValidationResponse where
  status : Nat
  success : Bool
  message : String
  errors : List ErrorDetail
deriving DecidableEq, Repr

/-- `handleValidationErrors` (src/utils/validation.js, lines 382-402):
if the collected validation errors are non-empty, respond 400 with
`success: false` and one structured record per error; otherwise fall
through to the next handler (`none`). -/
def handleValidationErrors (errors : List FieldError) : Option ValidationResponse :=
  if errors.isEmpty then none
  else
    some { status := 400
           success := false
           message := "Validation failed"
           errors := errors.map mkDetail }

/-! ## The store and the route handlers -/

/-- The document store visible to the verified routes: the Colony and
Plot collections. -/
structure World where
  colonies : List Colony
  plots : List Plot
deriving DecidableEq, Repr

/-- A route response: HTTP status, the `success` flag of the envelope,
and the message. -/
structure Resp where
  status : Nat
  success : Bool
  message : String
deriving DecidableEq, Repr

/-- Success envelope `{success: true, message}`. -/
def Resp.ok (status : Nat) (message : String) : Resp :=
  { status := status, success := true, message := message }

/-- Failure envelope `{success: false, message}`. -/
def Resp.fail (status : Nat) (message : String) : Resp :=
  { status := status, success := false, message := message }

/-- The outcome of a request that first runs `handleValidationErrors`:
either the 400 validation response, or the wrapped handler's response. -/
inductive HandledResult where
  | failed (r : ValidationResponse)
  | handled (r : Resp)
deriving DecidableEq, Repr

/-- A route wrapped behind `handleValidationErrors` middleware: when
any validation error was collected the 400 response is returned and the
handler (and hence any store mutation) never runs; otherwise the
handler runs. -/
def runValidated (errors : List FieldError) (handler : World → World × Resp)
    (w : World) : World × HandledResult :=
  match handleValidationErrors errors with
  | some r => (w, .failed r)
  | none => ((handler w).1, .handled (handler w).2)

/-- The `post('save')` / `post('remove')` hook body (src/unnamed/part_000,
lines 107-123): `Colony.findById(this.colony)`; if found, run
`colony.updatePlotCounts()` (which re-queries the current plot set and
saves the colony back). -/
def runCountHook (w : World) (colonyId : Nat) : World :=
  if ∃ c ∈ w.colonies, c.id = colonyId then
    { w with
      colonies := w.colonies.map
        (fun c => if c.id = colonyId then c.updatePlotCounts w.plots else c) }
  else w

/-- The `Plot.create` / `document.save` pipeline: run the pre-save hook,
store the document, then run the post-save counter hook against the
store that now contains it. -/
def savePlot (w : World) (p : Plot) : World :=
  let stored := p.preSave
  runCountHook { w with plots := w.plots ++ [stored] } stored.colony

/-- The caller-controlled fields of a `POST /plots` body that this
development tracks; the handler spreads the body into `Plot.create`, so
a caller-supplied `totalPrice` reaches the document, and `status`
defaults to `available` when absent. -/
structure PlotCreateBody where
  plotNumber : String
  colony : Nat
  area : Option ℚ
  pricePerSqFt : Option ℚ
  totalPrice : Option ℚ
  status : Option PlotStatus
deriving DecidableEq, Repr

/-- The Plot document built by `Plot.create({...req.body, createdBy})`
before the save hooks run. -/
def mkPlotDoc (freshId : Nat) (b : PlotCreateBody) : Plot :=
  { id := freshId
    plotNumber := b.plotNumber
    colony := b.colony
    area := b.area
    pricePerSqFt := b.pricePerSqFt
    totalPrice := b.totalPrice
    status := b.status.getD .available }

/-- `POST /plots` (src/routes/userRoutes.js, lines 496-541): reject if
the referenced colony does not exist; reject as a conflict if a plot
with the same `plotNumber` already exists in the same colony; otherwise
create the plot through the save pipeline. -/
def postPlot (w : World) (freshId : Nat) (b : PlotCreateBody) : World × Resp :=
  if ∃ c ∈ w.colonies, c.id = b.colony then
    if ∃ p ∈ w.plots, p.plotNumber = b.plotNumber ∧ p.colony = b.colony then
      (w, .fail 400 "Plot number already exists in this colony")
    else
      (savePlot w (mkPlotDoc freshId b), .ok 201 "Plot created successfully")
  else
    (w, .fail 400 "Colony not found")

/-- The caller-controlled fields of a `PUT /plots/:id` body; every
field is optional, and the handler passes the body wholesale to
`findByIdAndUpdate`. -/
structure PlotUpdateBody where
  plotNumber : Option String
  area : Option ℚ
  pricePerSqFt : Option ℚ
  totalPrice : Option ℚ
  status : Option PlotStatus
deriving DecidableEq, Repr

/-- The field-wise effect of `findByIdAndUpdate(id, req.body)` on the
matched document: each field present in the body replaces the stored
one. -/
def applyUpdate (b : PlotUpdateBody) (p : Plot) : Plot :=
  { p with
    plotNumber := b.plotNumber.getD p.plotNumber
    area := match b.area with | some a => some a | none => p.area
    pricePerSqFt := match b.pricePerSqFt with | some r => some r | none => p.pricePerSqFt
    totalPrice := match b.totalPrice with | some t => some t | none => p.totalPrice
    status := b.status.getD p.status }

/-- `PUT /plots/:id` (src/routes/userRoutes.js, lines 546-576):
`Plot.findByIdAndUpdate(id, req.body, {new: true, runValidators: true})`.
This is a query-level update: neither the pre-save price hook nor the
post-save counter hook runs, and no Colony document is touched. -/
def putPlot (w : World) (plotId : Nat) (b : PlotUpdateBody) : World × Resp :=
  if ∃ p ∈ w.plots, p.id = plotId then
    ({ w with
       plots := w.plots.map (fun p => if p.id = plotId then applyUpdate b p else p) },
     .ok 200 "Plot updated successfully")
  else
    (w, .fail 404 "Plot not found")

/-- `DELETE /plots/:id` (src/routes/userRoutes.js, lines 581-615):
404 when absent; conflict when the plot is sold; otherwise remove the
document and run the post-remove counter hook for its colony. -/
def deletePlot (w : World) (plotId : Nat) : World × Resp :=
  match w.plots.find? (fun p => p.id = plotId) with
  | none => (w, .fail 404 "Plot not found")
  | some p =>
      if p.status = .sold then
        (w, .fail 400 "Cannot delete sold plot")
      else
        (runCountHook { w with plots := w.plots.filter (fun q => ¬ q.id = plotId) } p.colony,
         .ok 200 "Plot deleted successfully")

/-- The caller-controlled fields of a `POST /colonies` body that this
development tracks.  The handler spreads `req.body` into
`Colony.create`, so the four counter fields are caller-assignable; the
schema default `0` applies only when a field is absent. -/
structure ColonyCreateBody where
  name : String
  address : String
  totalPlots : Option Nat
  availablePlots : Option Nat
  soldPlots : Option Nat
  blockedPlots : Option Nat
deriving DecidableEq, Repr

/-- `POST /colonies` (src/unnamed/part_001, lines 95-135): the inline
validators require non-empty `name` and `address`; on success
`Colony.create({...req.body, createdBy})` stores the spread body with
schema defaults for absent fields. -/
def postColony (w : World) (freshId : Nat) (b : ColonyCreateBody) : World × Resp :=
  if b.name = "" ∨ b.address = "" then
    (w, .fail 400 "Validation errors")
  else
    ({ w with
       colonies := w.colonies ++
         [{ id := freshId
            name := b.name
            address := b.address
            totalPlots := b.totalPlots.getD 0
            availablePlots := b.availablePlots.getD 0
            soldPlots := b.soldPlots.getD 0
            blockedPlots := b.blockedPlots.getD 0 }] },
     .ok 201 "Colony created successfully")

/-- A colony's four counters agree with a full recompute over the given
plot collection. -/
def countersRecomputed (plots : List Plot) (c : Colony) : Prop :=
  c.totalPlots = (plotsOfColony plots c.id).length ∧
  c.availablePlots = (plotsOfColony plots c.id).countP (fun p => p.status = .available) ∧
  c.soldPlots = (plotsOfColony plots c.id).countP (fun p => p.status = .sold) ∧
  c.blockedPlots = (plotsOfColony plots c.id).countP (fun p => p.status = .blocked)

/-- What a counter recompute guarantees for a colony against a plot
collection: `totalPlots` equals the live count of plots referencing the
colony, the three tracked status buckets sum to at most `totalPlots`,
and the sum falls short of `totalPlots` exactly when some plot of the
colony has the untracked `reserved` status. -/
def recomputeChecks (plots : List Plot) (c : Colony) : Prop :=
  (c.updatePlotCounts plots).totalPlots = (plotsOfColony plots c.id).length ∧
  (c.updatePlotCounts plots).availablePlots + (c.updatePlotCounts plots).soldPlots
      + (c.updatePlotCounts plots).blockedPlots ≤ (c.updatePlotCounts plots).totalPlots ∧
  ((c.updatePlotCounts plots).availablePlots + (c.updatePlotCounts plots).soldPlots
      + (c.updatePlotCounts plots).blockedPlots ≠ (c.updatePlotCounts plots).totalPlots
    ↔ ∃ p ∈ plotsOfColony plots c.id, p.status = PlotStatus.reserved)

/-! ## Concrete fixtures used by witnesses and counterexamples -/

/-- A colony used by the concrete instances. -/
def colonyA : Colony :=
  { id := 1, name := "Green Acres", address := "NH-8"
    totalPlots := 1, availablePlots := 1, soldPlots := 0, blockedPlots := 0 }

/-- A second colony, for the cross-colony uniqueness instance. -/
def colonyB : Colony :=
  { id := 2, name := "Lake View", address := "MG Road"
    totalPlots := 0, availablePlots := 0, soldPlots := 0, blockedPlots := 0 }

/-- A stored plot of `colonyA` with a stale-looking price. -/
def plotA : Plot :=
  { id := 7, plotNumber := "P-1", colony := 1
    area := some 100, pricePerSqFt := some 200, totalPrice := some 20000
    status := .available }

/-- A two-colony, one-plot store. -/
def worldA : World := { colonies := [colonyA, colonyB], plots := [plotA] }

/-- An update body supplying both `area` and `pricePerSqFt` but no
`totalPrice`. -/
def updBodyA : PlotUpdateBody :=
  { plotNumber := none, area := some 60, pricePerSqFt := some 300
    totalPrice := none, status := none }

/-- A status-only update body. -/
def updBodyStatus : PlotUpdateBody :=
  { plotNumber := none, area := none, pricePerSqFt := none
    totalPrice := none, status := some .sold }

/-- A create body reusing `plotA`'s plot number under `colonyB`. -/
def crtBodyB : PlotCreateBody :=
  { plotNumber := "P-1", colony := 2, area := some 80, pricePerSqFt := some 150
    totalPrice := some 1, status := none }

/-- A create body duplicating `plotA`'s plot number under `colonyA`. -/
def crtBodyDup : PlotCreateBody :=
  { plotNumber := "P-1", colony := 1, area := some 80, pricePerSqFt := some 150
    totalPrice := some 1, status := none }

/-- A colony create body supplying counter values. -/
def colBodyCounters : ColonyCreateBody :=
  { name := "Sunrise City", address := "Ring Road"
    totalPlots := some 5, availablePlots := some 4, soldPlots := some 1
    blockedPlots := none }

/-- A colony create body omitting every counter. -/
def colBodyPlain : ColonyCreateBody :=
  { name := "Sunrise City", address := "Ring Road"
    totalPlots := none, availablePlots := none, soldPlots := none
    blockedPlots := none }

/-- A single collected validation error. -/
def fieldErrA : FieldError :=
  { path := "area", msg := "Area must be a number", value := "abc", location := "body" }

/-- A second collected validation error on another field. -/
def fieldErrB : FieldError :=
  { path := "facing", msg := "Invalid facing direction", value := "up", location := "body" }

/-! ## Supporting lemmas -/

/-- The recompute method leaves each counter equal to the corresponding
count over the given plot collection. -/
theorem updatePlotCounts_countersRecomputed (plots : List Plot) (c : Colony) :
    countersRecomputed plots (c.updatePlotCounts plots) := by
  simp [countersRecomputed, Colony.updatePlotCounts, plotsOfColony,
    List.countP_eq_length_filter]

/-- The recompute result does not depend on the colony's previous
counter values. -/
theorem updatePlotCounts_prev_counters_irrelevant (plots : List Plot) (c : Colony)
    (t a s b : Nat) :
    Colony.updatePlotCounts plots
        { c with totalPlots := t, availablePlots := a, soldPlots := s, blockedPlots := b }
      = c.updatePlotCounts plots := rfl

/-- The counter hook touches only the Colony collection. -/
theorem runCountHook_plots (w : World) (cid : Nat) :
    (runCountHook w cid).plots = w.plots := by
  unfold runCountHook
  split <;> rfl

/-- After the counter hook for a colony id, every colony bearing that id
carries fully recomputed counters. -/
theorem runCountHook_recomputes (w : World) (cid : Nat) :
    ∀ c ∈ (runCountHook w cid).colonies, c.id = cid →
      countersRecomputed (runCountHook w cid).plots c := by
  intro c hc hid
  rw [runCountHook_plots]
  unfold runCountHook at hc
  split at hc
  · simp only [List.mem_map] at hc
    obtain ⟨c0, hc0mem, hceq⟩ := hc
    by_cases h0 : c0.id = cid
    · rw [if_pos h0] at hceq
      subst hceq
      exact updatePlotCounts_countersRecomputed w.plots c0
    · rw [if_neg h0] at hceq
      subst hceq
      exact absurd hid h0
  · next hno =>
      exact absurd ⟨c, hc, hid⟩ hno

/-- Every plot falls into exactly one of the four status buckets. -/
theorem status_partition (l : List Plot) :
    (l.filter (fun p => p.status = .available)).length +
      (l.filter (fun p => p.status = .sold)).length +
      (l.filter (fun p => p.status = .blocked)).length +
      (l.filter (fun p => p.status = .reserved)).length = l.length := by
  induction l with
  | nil => rfl
  | cons p t ih =>
    cases h : p.status <;> simp [List.filter_cons, h, ← ih] <;> omega

/-- A plot collection has no reserved member exactly when the reserved
bucket is empty. -/
theorem reserved_filter_eq_zero_iff (l : List Plot) :
    (l.filter (fun p => p.status = .reserved)).length = 0 ↔
      ∀ p ∈ l, p.status ≠ .reserved := by
  simp [List.length_eq_zero, List.filter_eq_nil_iff]

/-- The recompute guarantees hold against every plot collection. -/
theorem recomputeChecks_all (plots : List Plot) (c : Colony) : recomputeChecks plots c := by
  have hpart := status_partition (plotsOfColony plots c.id)
  have h1 : (c.updatePlotCounts plots).totalPlots = (plotsOfColony plots c.id).length := rfl
  have h2 : (c.updatePlotCounts plots).availablePlots
      = ((plotsOfColony plots c.id).filter (fun p => p.status = .available)).length := rfl
  have h3 : (c.updatePlotCounts plots).soldPlots
      = ((plotsOfColony plots c.id).filter (fun p => p.status = .sold)).length := rfl
  have h4 : (c.updatePlotCounts plots).blockedPlots
      = ((plotsOfColony plots c.id).filter (fun p => p.status = .blocked)).length := rfl
  refine ⟨h1, ?_, ?_⟩
  · rw [h1, h2, h3, h4]; omega
  · rw [h1, h2, h3, h4]
    constructor
    · intro hne
      rcases Nat.eq_zero_or_pos
          ((plotsOfColony plots c.id).filter
            (fun p => p.status = .reserved)).length with hz | hpos
      · exact absurd (by omega) hne
      · have hne2 : (plotsOfColony plots c.id).filter (fun p => p.status = .reserved) ≠ [] :=
          List.length_pos.mp hpos
        obtain ⟨p, hp⟩ := List.exists_mem_of_ne_nil _ hne2
        have hmf := List.mem_filter.mp hp
        exact ⟨p, hmf.1, by simpa using hmf.2⟩
    · rintro ⟨p, hpmem, hpres⟩
      have hmem : p ∈ (plotsOfColony plots c.id).filter (fun p => p.status = .reserved) :=
        List.mem_filter.mpr ⟨hpmem, by simpa using hpres⟩
      have hpos := List.length_pos_of_mem hmem
      omega

/-- The pre-save hook changes no field other than `totalPrice`. -/
theorem preSave_fields (p : Plot) :
    p.preSave.id = p.id ∧ p.preSave.plotNumber = p.plotNumber ∧
    p.preSave.colony = p.colony ∧ p.preSave.area = p.area ∧
    p.preSave.pricePerSqFt = p.pricePerSqFt ∧ p.preSave.status = p.status := by
  unfold Plot.preSave
  rcases ha : p.area with _ | a <;> rcases hr : p.pricePerSqFt with _ | r <;>
    simp [ha, hr]
  split <;> simp [ha, hr]

/-- With both inputs present and nonzero, the pre-save hook writes their
product into `totalPrice`. -/
theorem preSave_totalPrice (p : Plot) (a r : ℚ)
    (ha : p.area = some a) (hr : p.pricePerSqFt = some r) (hza : a ≠ 0) (hzr : r ≠ 0) :
    p.preSave.totalPrice = some (a * r) := by
  unfold Plot.preSave
  simp [ha, hr, hza, hzr]

/-- The pre-save price recompute is idempotent. -/
theorem preSave_idem (p : Plot) : p.preSave.preSave = p.preSave := by
  unfold Plot.preSave
  rcases ha : p.area with _ | a <;> rcases hr : p.pricePerSqFt with _ | r <;>
    simp [ha, hr]
  by_cases hz : a ≠ 0 ∧ r ≠ 0
  · simp [ha, hr, if_pos hz]
  · simp [ha, hr, if_neg hz]

/-- The save pipeline appends exactly the pre-save image of the new
document to the Plot collection. -/
theorem savePlot_plots (w : World) (p : Plot) :
    (savePlot w p).plots = w.plots ++ [p.preSave] := by
  simp only [savePlot]
  rw [runCountHook_plots]

/-- A successful plot create ran the save pipeline on the document built
from the body. -/
theorem postPlot_success_shape (w : World) (fid : Nat) (b : PlotCreateBody)
    (h : (postPlot w fid b).2.success = true) :
    postPlot w fid b
      = (savePlot w (mkPlotDoc fid b), Resp.ok 201 "Plot created successfully") := by
  by_cases h1 : ∃ c ∈ w.colonies, c.id = b.colony
  · by_cases h2 : ∃ p ∈ w.plots, p.plotNumber = b.plotNumber ∧ p.colony = b.colony
    · simp only [postPlot, if_pos h1, if_pos h2] at h
      simp [Resp.fail] at h
    · simp only [postPlot, if_pos h1, if_neg h2]
  · simp only [postPlot, if_neg h1] at h
    simp [Resp.fail] at h

/-- Digit extraction after prefixing the country code keeps the code's
digits and the extracted digits. -/
theorem extractDigits_plus91 (s : String) :
    extractDigits ("+91" ++ extractDigits s) = ⟨'9' :: '1' :: (extractDigits s).data⟩ := by
  simp [extractDigits, String.data_append]

/-- Digit extraction is unchanged by prefixing a plus sign. -/
theorem extractDigits_plus (s : String) :
    extractDigits ("+" ++ extractDigits s) = extractDigits s := by
  simp [extractDigits, String.data_append]

/-! ## Claim theorems -/

/-- C1: for every Colony, the counter recompute loads exactly the plots
whose `colony` reference equals the colony's id and sets `totalPlots`,
`availablePlots`, `soldPlots`, `blockedPlots` to the size of that set
and its per-status counts, persists the same colony record (identity and
the other fields unchanged), and its result depends only on the loaded
plot set, not on the colony's previous counter values. -/
theorem C1_counter_recompute_from_plot_set (plots : List Plot) (c : Colony) :
    (c.updatePlotCounts plots).totalPlots = (plotsOfColony plots c.id).length ∧
    (c.updatePlotCounts plots).availablePlots
        = (plotsOfColony plots c.id).countP (fun p => p.status = .available) ∧
    (c.updatePlotCounts plots).soldPlots
        = (plotsOfColony plots c.id).countP (fun p => p.status = .sold) ∧
    (c.updatePlotCounts plots).blockedPlots
        = (plotsOfColony plots c.id).countP (fun p => p.status = .blocked) ∧
    (c.updatePlotCounts plots).id = c.id ∧
    (c.updatePlotCounts plots).name = c.name ∧
    (c.updatePlotCounts plots).address = c.address ∧
    ∀ t a s b : Nat,
      Colony.updatePlotCounts plots
          { c with totalPlots := t, availablePlots := a, soldPlots := s, blockedPlots := b }
        = c.updatePlotCounts plots := by
  refine ⟨rfl, ?_, ?_, ?_, rfl, rfl, rfl, fun t a s b => rfl⟩ <;>
    simp [Colony.updatePlotCounts, List.countP_eq_length_filter]

/-- C2: against every plot collection — in particular the one left by
any completed plot create or delete (the two store-changing plot
operations) — a counter recompute yields `totalPlots` equal to the live
count of plots referencing the colony, the sum
`availablePlots + soldPlots + blockedPlots` is at most `totalPlots`, and
equality fails exactly when some plot of the colony has the untracked
status `reserved`. -/
theorem C2_counter_sum_bound_reserved_gap :
    (∀ (plots : List Plot) (c : Colony), recomputeChecks plots c) ∧
    (∀ (w : World) (fid : Nat) (b : PlotCreateBody) (c : Colony),
        recomputeChecks ((postPlot w fid b).1).plots c) ∧
    (∀ (w : World) (pid : Nat) (c : Colony),
        recomputeChecks ((deletePlot w pid).1).plots c) :=
  ⟨fun plots c => recomputeChecks_all plots c,
   fun _ _ _ c => recomputeChecks_all _ c,
   fun _ _ c => recomputeChecks_all _ c⟩

/-- C3: the route-level plot update (`findByIdAndUpdate`) leaves the
entire Colony collection — in particular all four counters — untouched,
even for a status transition, while a successful plot create or delete
leaves the targeted colony's counters fully recomputed against the
resulting plot collection. -/
theorem C3_recompute_trigger_asymmetry :
    (∀ (w : World) (pid : Nat) (b : PlotUpdateBody),
        ((putPlot w pid b).1).colonies = w.colonies) ∧
    (∀ (w : World) (fid : Nat) (b : PlotCreateBody),
        (postPlot w fid b).2.success = true →
        ∀ c ∈ ((postPlot w fid b).1).colonies, c.id = b.colony →
          countersRecomputed ((postPlot w fid b).1).plots c) ∧
    (∀ (w : World) (pid : Nat),
        (deletePlot w pid).2.success = true →
        ∃ p ∈ w.plots, p.id = pid ∧
          ∀ c ∈ ((deletePlot w pid).1).colonies, c.id = p.colony →
            countersRecomputed ((deletePlot w pid).1).plots c) := by
  refine ⟨?_, ?_, ?_⟩
  · intro w pid b
    simp only [putPlot]
    split <;> rfl
  · intro w fid b hsucc c hc hcid
    rw [postPlot_success_shape w fid b hsucc] at hc ⊢
    have hcol : ((mkPlotDoc fid b).preSave).colony = b.colony :=
      (preSave_fields (mkPlotDoc fid b)).2.2.1
    simp only [savePlot] at hc ⊢
    exact runCountHook_recomputes _ _ c hc (by rw [hcol, hcid])
  · intro w pid hsucc
    cases hf : w.plots.find? (fun p => p.id = pid) with
    | none =>
        rw [deletePlot, hf] at hsucc
        simp [Resp.fail] at hsucc
    | some p =>
        have hmem : p ∈ w.plots := List.mem_of_find?_eq_some hf
        have hid : p.id = pid := by
          have := List.find?_some hf
          simpa using this
        refine ⟨p, hmem, hid, ?_⟩
        intro c hc hcid
        by_cases hsold : p.status = PlotStatus.sold
        · simp only [deletePlot, hf, if_pos hsold] at hsucc
          simp [Resp.fail] at hsucc
        · simp only [deletePlot, hf, if_neg hsold] at hc ⊢
          exact runCountHook_recomputes _ _ c hc (by rw [hcid])

/-- C3 witness: in the concrete two-colony store, a status-only plot
update leaves the colonies unchanged, while a concrete create and a
concrete delete leave the targeted colony recomputed. -/
theorem C3_recompute_trigger_asymmetry_witness :
    ((putPlot worldA 7 updBodyStatus).1).colonies = worldA.colonies ∧
    (∀ c ∈ ((postPlot worldA 10 crtBodyB).1).colonies, c.id = crtBodyB.colony →
        countersRecomputed ((postPlot worldA 10 crtBodyB).1).plots c) ∧
    (∃ p ∈ worldA.plots, p.id = 7 ∧
        ∀ c ∈ ((deletePlot worldA 7).1).colonies, c.id = p.colony →
          countersRecomputed ((deletePlot worldA 7).1).plots c) :=
  ⟨C3_recompute_trigger_asymmetry.1 worldA 7 updBodyStatus,
   C3_recompute_trigger_asymmetry.2.1 worldA 10 crtBodyB (by decide),
   C3_recompute_trigger_asymmetry.2.2 worldA 7 (by decide)⟩

/-- C4 counterexample: a successful route-level plot update supplying
both `area` (60) and `pricePerSqFt` (300) leaves the stored
`totalPrice` at its old value 20000, not at the product 18000 — the
claim that every update supplying both fields stores their product is
false on the code. -/
theorem C4_update_skips_price_recompute_cex :
    (putPlot worldA 7 updBodyA).2.success = true ∧
    ((putPlot worldA 7 updBodyA).1).plots.map
        (fun p => (p.area, p.pricePerSqFt, p.totalPrice))
      = [(some 60, some 300, some 20000)] ∧
    (60 : ℚ) * 300 = 18000 ∧ (20000 : ℚ) ≠ 18000 :=
  ⟨by decide, by decide, by norm_num, by norm_num⟩

/-- C4 as amended: the `totalPrice := area * pricePerSqFt` recompute
runs on the document-save path — used by create — whenever both inputs
are present and nonzero, overwriting any caller-supplied value, and is
idempotent; a successful route create stores the product in the new
document; the route-level update (`findByIdAndUpdate`) does not run the
recompute, so a stored `totalPrice` changes on update only when the
body supplies one. -/
theorem C4_price_recompute_on_save_only :
    (∀ (p : Plot) (a r : ℚ),
        p.area = some a → p.pricePerSqFt = some r → a ≠ 0 → r ≠ 0 →
        p.preSave.totalPrice = some (a * r)) ∧
    (∀ p : Plot, p.preSave.preSave = p.preSave) ∧
    (∀ (w : World) (fid : Nat) (b : PlotCreateBody) (a r : ℚ),
        b.area = some a → b.pricePerSqFt = some r → a ≠ 0 → r ≠ 0 →
        (postPlot w fid b).2.success = true →
        ∃ stored : Plot, ((postPlot w fid b).1).plots = w.plots ++ [stored] ∧
          stored.totalPrice = some (a * r)) ∧
    (∀ (w : World) (pid : Nat) (b : PlotUpdateBody), b.totalPrice = none →
        ((putPlot w pid b).1).plots.map Plot.totalPrice = w.plots.map Plot.totalPrice) := by
  refine ⟨fun p a r => preSave_totalPrice p a r, preSave_idem, ?_, ?_⟩
  · intro w fid b a r ha hr hza hzr hsucc
    rw [postPlot_success_shape w fid b hsucc]
    refine ⟨(mkPlotDoc fid b).preSave, savePlot_plots w (mkPlotDoc fid b), ?_⟩
    exact preSave_totalPrice _ a r (by simp [mkPlotDoc, ha]) (by simp [mkPlotDoc, hr]) hza hzr
  · intro w pid b hbt
    simp only [putPlot]
    split
    · simp only [List.map_map]
      refine List.map_congr_left ?_
      intro p hp
      by_cases hid : p.id = pid
      · simp [Function.comp, hid, applyUpdate, hbt]
      · simp [Function.comp, hid]
    · rfl

/-- C4 witness: the pre-save recompute at the stored plot, a concrete
successful create storing the product 80 * 150, and a concrete update
without a supplied `totalPrice` leaving every stored `totalPrice`
unchanged. -/
theorem C4_price_recompute_on_save_only_witness :
    (plotA.area = some 100 ∧ plotA.pricePerSqFt = some 200 ∧
      (100 : ℚ) ≠ 0 ∧ (200 : ℚ) ≠ 0 ∧
      plotA.preSave.totalPrice = some ((100 : ℚ) * 200)) ∧
    (crtBodyB.area = some 80 ∧ crtBodyB.pricePerSqFt = some 150 ∧
      (postPlot worldA 10 crtBodyB).2.success = true ∧
      ∃ stored : Plot, ((postPlot worldA 10 crtBodyB).1).plots = worldA.plots ++ [stored] ∧
        stored.totalPrice = some ((80 : ℚ) * 150)) ∧
    (updBodyA.totalPrice = none ∧
      ((putPlot worldA 7 updBodyA).1).plots.map Plot.totalPrice
        = worldA.plots.map Plot.totalPrice) :=
  ⟨⟨by decide, by decide, by decide, by decide,
    C4_price_recompute_on_save_only.1 plotA 100 200 (by decide) (by decide)
      (by decide) (by decide)⟩,
   ⟨by decide, by decide, by decide,
    C4_price_recompute_on_save_only.2.2.1 worldA 10 crtBodyB 80 150 (by decide) (by decide)
      (by decide) (by decide) (by decide)⟩,
   ⟨by decide,
    C4_price_recompute_on_save_only.2.2.2 worldA 7 updBodyA (by decide)⟩⟩

/-- C5 counterexample: the colony create handler spreads the request
body into the store, so a body supplying `totalPlots := 5`,
`availablePlots := 4`, `soldPlots := 1` yields a stored colony with
exactly those counter values rather than the schema defaults — the
claim that the four counters are never set from API-caller-supplied
values is false on the code. -/
theorem C5_colony_create_stores_caller_counters_cex :
    (postColony { colonies := [], plots := [] } 3 colBodyCounters).2.success = true ∧
    ((postColony { colonies := [], plots := [] } 3 colBodyCounters).1).colonies.map
        (fun c => (c.totalPlots, c.availablePlots, c.soldPlots, c.blockedPlots))
      = [(5, 4, 1, 0)] ∧
    ¬ ((postColony { colonies := [], plots := [] } 3 colBodyCounters).1).colonies.map
        Colony.totalPlots = [0] := by decide

/-- C5 as amended: the four counters default to 0 when a colony is
created without supplying them, and every counter recompute overwrites
all four with values computed solely from the plot collection,
regardless of their previous values; however the colony create endpoint
spreads the request body into the store, so API-supplied counter values
are stored at create and persist until the next recompute. -/
theorem C5_counter_defaults_and_recompute_ownership :
    (∀ (w : World) (fid : Nat) (b : ColonyCreateBody),
        b.name ≠ "" → b.address ≠ "" →
        b.totalPlots = none → b.availablePlots = none →
        b.soldPlots = none → b.blockedPlots = none →
        ∃ c : Colony, ((postColony w fid b).1).colonies = w.colonies ++ [c] ∧
          c.totalPlots = 0 ∧ c.availablePlots = 0 ∧ c.soldPlots = 0 ∧ c.blockedPlots = 0) ∧
    (∀ (plots : List Plot) (c : Colony) (t a s b : Nat),
        Colony.updatePlotCounts plots
            { c with totalPlots := t, availablePlots := a, soldPlots := s, blockedPlots := b }
          = c.updatePlotCounts plots) := by
  refine ⟨?_, fun plots c t a s b =>
    updatePlotCounts_prev_counters_irrelevant plots c t a s b⟩
  intro w fid b hn hadr ht hav hs hb
  have hcond : ¬ (b.name = "" ∨ b.address = "") := by
    rintro (h | h) <;> [exact hn h; exact hadr h]
  simp only [postColony, if_neg hcond]
  exact ⟨_, rfl, by simp [ht], by simp [hav], by simp [hs], by simp [hb]⟩

/-- C5 witness: a concrete create omitting every counter stores a
colony with all counters 0, and a concrete recompute ignores planted
counter values 9. -/
theorem C5_counter_defaults_and_recompute_ownership_witness :
    (∃ c : Colony,
        ((postColony { colonies := [], plots := [] } 3 colBodyPlain).1).colonies
          = ({ colonies := [], plots := [] } : World).colonies ++ [c] ∧
        c.totalPlots = 0 ∧ c.availablePlots = 0 ∧ c.soldPlots = 0 ∧ c.blockedPlots = 0) ∧
    Colony.updatePlotCounts worldA.plots
        { colonyA with totalPlots := 9, availablePlots := 9, soldPlots := 9, blockedPlots := 9 }
      = colonyA.updatePlotCounts worldA.plots :=
  ⟨C5_counter_defaults_and_recompute_ownership.1 { colonies := [], plots := [] } 3 colBodyPlain
      (by decide) (by decide) (by decide) (by decide) (by decide) (by decide),
   C5_counter_defaults_and_recompute_ownership.2 worldA.plots colonyA 9 9 9 9⟩

/-- C6: with the referenced colony present, creating a plot whose
`plotNumber` already exists in the same colony is rejected as a
conflict with the store entirely unchanged (no mutation attempted),
while absent such a same-colony duplicate — even when the same
`plotNumber` exists under a different colony — the create succeeds and
appends a plot carrying the requested number and colony. -/
theorem C6_plot_number_unique_per_colony (w : World) (fid : Nat) (b : PlotCreateBody)
    (hc : ∃ c ∈ w.colonies, c.id = b.colony) :
    ((∃ p ∈ w.plots, p.plotNumber = b.plotNumber ∧ p.colony = b.colony) →
        postPlot w fid b = (w, Resp.fail 400 "Plot number already exists in this colony")) ∧
    (¬ (∃ p ∈ w.plots, p.plotNumber = b.plotNumber ∧ p.colony = b.colony) →
        (postPlot w fid b).2 = Resp.ok 201 "Plot created successfully" ∧
        ∃ stored : Plot, ((postPlot w fid b).1).plots = w.plots ++ [stored] ∧
          stored.plotNumber = b.plotNumber ∧ stored.colony = b.colony) := by
  constructor
  · intro hdup
    simp only [postPlot, if_pos hc, if_pos hdup]
  · intro hdup
    have hpair : postPlot w fid b
        = (savePlot w (mkPlotDoc fid b), Resp.ok 201 "Plot created successfully") := by
      simp only [postPlot, if_pos hc, if_neg hdup]
    rw [hpair]
    refine ⟨rfl, (mkPlotDoc fid b).preSave, savePlot_plots w (mkPlotDoc fid b), ?_, ?_⟩
    · rw [(preSave_fields (mkPlotDoc fid b)).2.1]
      rfl
    · rw [(preSave_fields (mkPlotDoc fid b)).2.2.1]
      rfl

/-- C6 witness: in the concrete store holding plot "P-1" under colony 1,
a second "P-1" under colony 1 is rejected with the store unchanged,
while "P-1" under colony 2 is created successfully. -/
theorem C6_plot_number_unique_per_colony_witness :
    (∃ c ∈ worldA.colonies, c.id = crtBodyDup.colony) ∧
    (∃ p ∈ worldA.plots, p.plotNumber = crtBodyDup.plotNumber ∧ p.colony = crtBodyDup.colony) ∧
    postPlot worldA 10 crtBodyDup
      = (worldA, Resp.fail 400 "Plot number already exists in this colony") ∧
    (∃ c ∈ worldA.colonies, c.id = crtBodyB.colony) ∧
    (∃ p ∈ worldA.plots, p.plotNumber = crtBodyB.plotNumber ∧ p.colony ≠ crtBodyB.colony) ∧
    ¬ (∃ p ∈ worldA.plots, p.plotNumber = crtBodyB.plotNumber ∧ p.colony = crtBodyB.colony) ∧
    (postPlot worldA 11 crtBodyB).2 = Resp.ok 201 "Plot created successfully" ∧
    ∃ stored : Plot, ((postPlot worldA 11 crtBodyB).1).plots = worldA.plots ++ [stored] ∧
      stored.plotNumber = crtBodyB.plotNumber ∧ stored.colony = crtBodyB.colony :=
  ⟨by decide, by decide,
   (C6_plot_number_unique_per_colony worldA 10 crtBodyDup (by decide)).1 (by decide),
   by decide, by decide, by decide,
   (C6_plot_number_unique_per_colony worldA 11 crtBodyB (by decide)).2 (by decide)⟩

/-- C7: whenever the collected validation errors are non-empty, the
validation handler responds with the HTTP 400 envelope, `success:
false`, and one structured record per violated rule — each carrying the
offending field, the rule's message, the rejected raw value, and the
location — all surfaced together rather than stopping at the first;
the wrapped handler never runs, so the store is unchanged. -/
theorem C7_validation_aggregates_all_errors (errors : List FieldError)
    (handler : World → World × Resp) (w : World) (h : errors ≠ []) :
    ∃ r : ValidationResponse,
      handleValidationErrors errors = some r ∧
      r.status = 400 ∧
      r.success = false ∧
      r.errors = errors.map mkDetail ∧
      runValidated errors handler w = (w, .failed r) := by
  have hh : handleValidationErrors errors
      = some { status := 400, success := false, message := "Validation failed",
               errors := errors.map mkDetail } := by
    simp [handleValidationErrors, List.isEmpty_iff, h]
  exact ⟨_, hh, rfl, rfl, rfl, by simp [runValidated, hh]⟩

/-- C7 witness: with two concrete collected errors, the 400 response
carries both structured records and the wrapped handler never mutates
the concrete store. -/
theorem C7_validation_aggregates_all_errors_witness :
    [fieldErrA, fieldErrB] ≠ ([] : List FieldError) ∧
    ∃ r : ValidationResponse,
      handleValidationErrors [fieldErrA, fieldErrB] = some r ∧
      r.status = 400 ∧
      r.success = false ∧
      r.errors = [fieldErrA, fieldErrB].map mkDetail ∧
      runValidated [fieldErrA, fieldErrB] (fun w => (w, Resp.ok 200 "ok")) worldA
        = (worldA, .failed r) :=
  ⟨by simp,
   C7_validation_aggregates_all_errors [fieldErrA, fieldErrB]
     (fun w => (w, Resp.ok 200 "ok")) worldA (by simp)⟩

/-- C8: phone sanitization extracts the digits of the input; exactly 10
digits yield `"+91"` followed by the digits, 11 to 15 digits yield
`"+"` followed by the digits, and anything else is rejected (`none`);
in particular "9876543210" maps to "+919876543210", "12345" is
rejected, and "+14155552671" maps to "+14155552671". -/
theorem C8_sanitize_phone_spec (s : String) :
    ((extractDigits s).length = 10 →
        sanitizePhone s = some ("+91" ++ extractDigits s)) ∧
    ((extractDigits s).length ≠ 10 →
        10 ≤ (extractDigits s).length → (extractDigits s).length ≤ 15 →
        sanitizePhone s = some ("+" ++ extractDigits s)) ∧
    (¬ (10 ≤ (extractDigits s).length ∧ (extractDigits s).length ≤ 15) →
        sanitizePhone s = none) ∧
    sanitizePhone "9876543210" = some "+919876543210" ∧
    sanitizePhone "12345" = none ∧
    sanitizePhone "+14155552671" = some "+14155552671" := by
  refine ⟨?_, ?_, ?_, by decide, by decide, by decide⟩
  · intro h10
    simp only [sanitizePhone]
    rw [if_pos h10]
  · intro hne h1 h2
    simp only [sanitizePhone]
    rw [if_neg hne, if_pos ⟨h1, h2⟩]
  · intro hnot
    simp only [sanitizePhone]
    rw [if_neg, if_neg hnot]
    intro h10
    exact hnot ⟨le_of_eq h10.symm, by omega⟩

/-- C8 witness: the three branch hypotheses discharged at the three
concrete inputs of the claim. -/
theorem C8_sanitize_phone_spec_witness :
    ((extractDigits "9876543210").length = 10 ∧
      sanitizePhone "9876543210" = some ("+91" ++ extractDigits "9876543210")) ∧
    ((extractDigits "+14155552671").length ≠ 10 ∧
      10 ≤ (extractDigits "+14155552671").length ∧
      (extractDigits "+14155552671").length ≤ 15 ∧
      sanitizePhone "+14155552671" = some ("+" ++ extractDigits "+14155552671")) ∧
    (¬ (10 ≤ (extractDigits "12345").length ∧ (extractDigits "12345").length ≤ 15) ∧
      sanitizePhone "12345" = none) :=
  ⟨⟨by decide, (C8_sanitize_phone_spec "9876543210").1 (by decide)⟩,
   ⟨by decide, by decide, by decide,
    (C8_sanitize_phone_spec "+14155552671").2.1 (by decide) (by decide) (by decide)⟩,
   ⟨by decide, (C8_sanitize_phone_spec "12345").2.2.1 (by decide)⟩⟩

/-- C9: the pagination block carries the requested page as `current`
and the total as `total`, and `pages` is the ceiling of
`total / limit`: it is the least number of pages covering the total
(characterized by `total ≤ pages * limit < total + limit` and
minimality); with `total = 25` and `limit = 10`, `pages` is 3 for page
requests 1 through 3. -/
theorem C9_pagination_pages_is_ceil (page limit total : Nat) (h : 0 < limit) :
    (paginationOf page limit total).current = page ∧
    (paginationOf page limit total).total = total ∧
    total ≤ (paginationOf page limit total).pages * limit ∧
    (paginationOf page limit total).pages * limit < total + limit ∧
    (∀ q : Nat, total ≤ q * limit → (paginationOf page limit total).pages ≤ q) ∧
    ((paginationOf 1 10 25).pages = 3 ∧ (paginationOf 2 10 25).pages = 3 ∧
      (paginationOf 3 10 25).pages = 3) := by
  have hl : (0 : ℚ) < (limit : ℚ) := by exact_mod_cast h
  have hpages : (paginationOf page limit total).pages = pagesOf total limit := rfl
  have h25 : pagesOf 25 10 = 3 := by
    rw [pagesOf, Nat.ceil_eq_iff (by norm_num)]
    norm_num
  refine ⟨rfl, rfl, ?_, ?_, ?_, h25, h25, h25⟩
  · have h1 : (total : ℚ) / limit ≤ ((pagesOf total limit : ℕ) : ℚ) := Nat.le_ceil _
    have h2 : (total : ℚ) ≤ (pagesOf total limit : ℚ) * limit := (div_le_iff₀ hl).mp h1
    rw [hpages]
    exact_mod_cast h2
  · have h2 : ((pagesOf total limit : ℕ) : ℚ) < (total : ℚ) / limit + 1 :=
      Nat.ceil_lt_add_one (by positivity)
    have h3 : (pagesOf total limit : ℚ) * limit < ((total : ℚ) / limit + 1) * limit :=
      mul_lt_mul_of_pos_right h2 hl
    rw [add_mul, div_mul_cancel₀ _ (ne_of_gt hl), one_mul] at h3
    rw [hpages]
    exact_mod_cast h3
  · intro q hq
    have hq2 : (total : ℚ) / limit ≤ (q : ℚ) := by
      rw [div_le_iff₀ hl]
      exact_mod_cast hq
    rw [hpages]
    exact Nat.ceil_le.mpr hq2

/-- C9 witness: the pagination contract at `page = 1`, `limit = 10`,
`total = 25`, including `pages = 3` for page requests 1, 2, 3. -/
theorem C9_pagination_pages_is_ceil_witness :
    (0 : Nat) < 10 ∧
    ((paginationOf 1 10 25).current = 1 ∧
     (paginationOf 1 10 25).total = 25 ∧
     25 ≤ (paginationOf 1 10 25).pages * 10 ∧
     (paginationOf 1 10 25).pages * 10 < 25 + 10 ∧
     (∀ q : Nat, 25 ≤ q * 10 → (paginationOf 1 10 25).pages ≤ q) ∧
     ((paginationOf 1 10 25).pages = 3 ∧ (paginationOf 2 10 25).pages = 3 ∧
       (paginationOf 3 10 25).pages = 3)) :=
  ⟨by decide, C9_pagination_pages_is_ceil 1 10 25 (by decide)⟩

/-- C10: phone sanitization is idempotent on its accepted range: every
accepted output is returned unchanged when sanitized again. -/
theorem C10_sanitize_phone_idempotent (s r : String) (h : sanitizePhone s = some r) :
    sanitizePhone r = some r := by
  unfold sanitizePhone at h ⊢
  simp only at h ⊢
  by_cases h10 : (extractDigits s).length = 10
  · rw [if_pos h10] at h
    have hr : r = "+91" ++ extractDigits s := (Option.some.inj h).symm
    subst hr
    rw [extractDigits_plus91]
    have hlen : (⟨'9' :: '1' :: (extractDigits s).data⟩ : String).length = 12 := by
      show ('9' :: '1' :: (extractDigits s).data).length = 12
      simp [show (extractDigits s).data.length = 10 from h10]
    rw [hlen]
    norm_num
    apply congrArg
    apply String.ext
    simp [extractDigits, String.data_append]
  · rw [if_neg h10] at h
    by_cases hle : 10 ≤ (extractDigits s).length ∧ (extractDigits s).length ≤ 15
    · rw [if_pos hle] at h
      have hr : r = "+" ++ extractDigits s := (Option.some.inj h).symm
      subst hr
      rw [extractDigits_plus]
      rw [if_neg h10, if_pos hle]
    · rw [if_neg hle] at h
      exact absurd h (by simp)

/-- C10 witness: sanitizing the accepted output "+919876543210" again
returns it unchanged. -/
theorem C10_sanitize_phone_idempotent_witness :
    sanitizePhone "9876543210" = some "+919876543210" ∧
    sanitizePhone "+919876543210" = some "+919876543210" :=
  ⟨by decide, C10_sanitize_phone_idempotent "9876543210" "+919876543210" (by decide)⟩

end Plotes
